import Mathlib

set_option maxHeartbeats 1000000

/-!
A shallow embedding of the residence-governance canister
(`src/src/core/src/lib.rs`): the apartment ownership registry, the council
candidacy ledger, the per-role vote tally with its double-vote guard, and
council finalization. Stable BTree maps are modelled as association lists
kept sorted by key (matching the maps' iteration order); `Principal` is an
opaque, equality- and order-comparable identity, modelled as `Nat`; vote
counters are modelled as `Nat` (overflow is immaterial to the properties
considered). Each canister update method becomes a pure function
`State → Except String Unit × State`; an `Err` return leaves whatever
mutations already happened in place, exactly as a non-trapping IC update
call does.
-/

/-- Caller identities (`candid::Principal`): opaque, equality- and
order-comparable values. -/
abbrev Principal := Nat

/-- The three fixed council roles (`enum CouncilRole`). -/
inductive CouncilRole
  | Chairman
  | Treasurer
  | Controller
deriving DecidableEq

/-- Model of `struct Apartment { name, number, owner }`. -/
structure Apartment where
  name : String
  number : Nat
  owner : Principal
deriving DecidableEq

/-- Model of `struct CouncilApplication { apartment_number, role }`. -/
structure CouncilApplication where
  apartment_number : Nat
  role : CouncilRole
deriving DecidableEq

/-- Model of `struct CouncilVoteEntry { apartment_number, votes }`. -/
structure CouncilVoteEntry where
  apartment_number : Nat
  votes : Nat
deriving DecidableEq

/-- Model of `struct CouncilVotes`: the three per-role tally lists. -/
structure CouncilVotes where
  chairman_votes : List CouncilVoteEntry
  treasurer_votes : List CouncilVoteEntry
  controller_votes : List CouncilVoteEntry
deriving DecidableEq

/-- Position of a role in the derived `Ord` on `CouncilRole`
(declaration order: Chairman < Treasurer < Controller). -/
def roleIdx : CouncilRole → Nat
  | .Chairman => 0
  | .Treasurer => 1
  | .Controller => 2

def roleLt (a b : CouncilRole) : Bool := decide (roleIdx a < roleIdx b)

def natLt (a b : Nat) : Bool := decide (a < b)

def principalLt (a b : Principal) : Bool := decide (a < b)

/-- Lexicographic order on `(u32, CouncilRole)` keys of the vote guard map. -/
def guardKeyLt (a b : Nat × CouncilRole) : Bool :=
  decide (a.1 < b.1) || (decide (a.1 = b.1) && decide (roleIdx a.2 < roleIdx b.2))

/-- Model of `StableBTreeMap::insert`: replace the value if the key is present,
otherwise insert at the key-ordered position. -/
def btInsert {K V : Type} [DecidableEq K] (lt : K → K → Bool) (k : K) (v : V) :
    List (K × V) → List (K × V)
  | [] => [(k, v)]
  | (k1, v1) :: rest =>
    if k = k1 then (k, v) :: rest
    else if lt k k1 then (k, v) :: (k1, v1) :: rest
    else (k1, v1) :: btInsert lt k v rest

/-- Model of `StableBTreeMap::get`. -/
def btLookup {K V : Type} [DecidableEq K] (k : K) (m : List (K × V)) : Option V :=
  (m.find? (fun p => decide (p.1 = k))).map (fun p => p.2)

/-- Model of `StableBTreeMap::contains_key`. -/
def btContains {K V : Type} [DecidableEq K] (k : K) (m : List (K × V)) : Bool :=
  m.any (fun p => decide (p.1 = k))

/-- Model of `StableBTreeMap::remove`. -/
def btRemove {K V : Type} [DecidableEq K] (k : K) : List (K × V) → List (K × V)
  | [] => []
  | (k1, v1) :: rest => if k = k1 then rest else (k1, v1) :: btRemove k rest

/-- The canister's mutable state: the residence capacity and builder identity
(from `RESIDENCE` / `BUILDER`), and the four durable collections plus the
in-memory tally (`APARTMENT_STORAGE`, `COUNCIL_APPLICATIONS`,
`COUNCIL_MEMBERS`, `COUNCIL_VOTES`, `VOTED_APARTMENTS`). Each map is its
entry list in ascending key order. -/
structure State where
  apartments_count : Nat
  builder_id : Principal
  apartment_storage : List (Nat × Apartment)
  council_applications : List (Principal × CouncilApplication)
  council_members : List (CouncilRole × Principal)
  council_votes : CouncilVotes
  voted_apartments : List ((Nat × CouncilRole) × Bool)
deriving DecidableEq

/-- Model of `add_apartment(apartment_number, apartment_name, owner)` called
by `caller`. -/
def add_apartment (caller : Principal) (apartment_number : Nat)
    (apartment_name : String) (owner : Principal) (s : State) :
    Except String Unit × State :=
  if ¬ (caller = s.builder_id) then
    (.error "Only the builder can add apartments.", s)
  else if apartment_number = 0 then
    (.error "Apartment number cannot be zero.", s)
  else if apartment_name = "" then
    (.error "Apartment name cannot be empty.", s)
  else if s.apartments_count ≤ s.apartment_storage.length then
    (.error ("Cannot add more than " ++ toString s.apartments_count ++ " apartments."), s)
  else if btContains apartment_number s.apartment_storage then
    (.error ("Apartment number " ++ toString apartment_number ++ " is already added."), s)
  else
    (.ok (), { s with
      apartment_storage := btInsert natLt apartment_number
        ⟨apartment_name, apartment_number, owner⟩ s.apartment_storage })

/-- Model of `apply_for_council(apartment_number, role)` called by `caller`. -/
def apply_for_council (caller : Principal) (apartment_number : Nat)
    (role : CouncilRole) (s : State) : Except String Unit × State :=
  match btLookup apartment_number s.apartment_storage with
  | none =>
    (.error ("Apartment " ++ toString apartment_number ++ " does not exist."), s)
  | some apt =>
    let owner_id := apt.owner
    if ¬ (owner_id = caller) then
      (.error "You can only apply for a council role for an apartment you own.", s)
    else if s.council_applications.any
        (fun p => decide (p.1 = owner_id) && decide (p.2.role = role)) then
      (.error ("Owner of apartment " ++ toString apartment_number ++
        " has already applied for the role."), s)
    else
      (.ok (), { s with
        council_applications :=
          btInsert principalLt owner_id ⟨apartment_number, role⟩ s.council_applications })

/-- One iteration of `make_council_proposal`'s loop over the candidacy
ledger: resolve the first apartment currently owned by the applicant and, if
one exists, append a zero-vote entry to that role's list. -/
def proposalStep (storage : List (Nat × Apartment)) (votes : CouncilVotes)
    (p : Principal × CouncilApplication) : CouncilVotes :=
  match storage.find? (fun q => decide (q.2.owner = p.1)) with
  | some q =>
    match p.2.role with
    | .Chairman => { votes with chairman_votes := votes.chairman_votes ++ [⟨q.1, 0⟩] }
    | .Treasurer => { votes with treasurer_votes := votes.treasurer_votes ++ [⟨q.1, 0⟩] }
    | .Controller => { votes with controller_votes := votes.controller_votes ++ [⟨q.1, 0⟩] }
  | none => votes

/-- Model of `make_council_proposal()`. -/
def make_council_proposal (s : State) : Except String Unit × State :=
  if ¬ (s.voted_apartments = []) then
    (.error "Council proposal cannot be made because there are existing votes.", s)
  else
    (.ok (), { s with
      council_votes :=
        s.council_applications.foldl (proposalStep s.apartment_storage) ⟨[], [], []⟩ })

/-- The tally list of a role (`match role` dispatch in the source). -/
def roleVotes (r : CouncilRole) (cv : CouncilVotes) : List CouncilVoteEntry :=
  match r with
  | .Chairman => cv.chairman_votes
  | .Treasurer => cv.treasurer_votes
  | .Controller => cv.controller_votes

/-- Replace the tally list of a role, leaving the other two untouched. -/
def setRoleVotes (r : CouncilRole) (l : List CouncilVoteEntry) (cv : CouncilVotes) :
    CouncilVotes :=
  match r with
  | .Chairman => { cv with chairman_votes := l }
  | .Treasurer => { cv with treasurer_votes := l }
  | .Controller => { cv with controller_votes := l }

/-- Scan of the tally list in `vote_for_council`: increment the first entry
matching the target apartment, or report that no candidate matched. -/
def vote_incr (target : Nat) : List CouncilVoteEntry → Option (List CouncilVoteEntry)
  | [] => none
  | e :: rest =>
    if e.apartment_number = target then some ({ e with votes := e.votes + 1 } :: rest)
    else
      match vote_incr target rest with
      | some rest1 => some (e :: rest1)
      | none => none

/-- Whether `caller` is the current owner of `voter_apartment_number`
(the `is_owner` check of `vote_for_council`). -/
def isOwner (caller : Principal) (voter_apartment_number : Nat) (s : State) : Bool :=
  match btLookup voter_apartment_number s.apartment_storage with
  | some apt => decide (apt.owner = caller)
  | none => false

/-- Model of `vote_for_council` called by `caller`. -/
def vote_for_council (caller : Principal) (voter_apartment_number : Nat)
    (target_apartment_number : Nat) (role : CouncilRole) (s : State) :
    Except String Unit × State :=
  if ¬ (isOwner caller voter_apartment_number s = true) then
    (.error "You can only vote from an apartment you own.", s)
  else if btContains (voter_apartment_number, role) s.voted_apartments then
    (.error "This apartment has already voted for this role.", s)
  else
    match vote_incr target_apartment_number (roleVotes role s.council_votes) with
    | some l1 =>
      (.ok (), { s with
        council_votes := setRoleVotes role l1 s.council_votes,
        voted_apartments :=
          btInsert guardKeyLt (voter_apartment_number, role) true s.voted_apartments })
    | none => (.error "No such apartment in the council applications.", s)

/-- The maximal vote count of a non-empty tally list `v :: rest`
(`votes.iter().max_by_key(|v| v.votes).unwrap().votes`). -/
def maxVotes (v : CouncilVoteEntry) (rest : List CouncilVoteEntry) : Nat :=
  rest.foldl (fun m e => max m e.votes) v.votes

/-- Model of `determine_council_role_winner(votes)`. -/
def determine_council_role_winner (votes : List CouncilVoteEntry) : Except String Nat :=
  match votes with
  | [] => .error "No candidates for this role."
  | v :: rest =>
    let max_votes := maxVotes v rest
    let candidates := (v :: rest).filter (fun e => decide (e.votes = max_votes))
    if 1 < candidates.length then
      .error "There is a tie between candidates. Please resolve manually."
    else
      match candidates with
      | c :: _ => .ok c.apartment_number
      | [] => .error "No candidates for this role."

/-- The turnout check of `finalize_council`: every apartment in the registry
has a guard entry for all three roles. -/
def allApartmentsVoted (s : State) : Bool :=
  s.apartment_storage.all (fun p =>
    btContains (p.1, CouncilRole.Chairman) s.voted_apartments &&
    btContains (p.1, CouncilRole.Treasurer) s.voted_apartments &&
    btContains (p.1, CouncilRole.Controller) s.voted_apartments)

/-- Model of `finalize_council()`. The council-member map is mutated in place exactly
as in the source: all three roles are removed first, then the three winners'
owners are inserted one by one, each missing-apartment lookup aborting with
an error that leaves the removals and earlier insertions in place. -/
def finalize_council (s : State) : Except String Unit × State :=
  if ¬ (allApartmentsVoted s = true) then
    (.error "Not all apartments have voted for every role.", s)
  else if s.council_votes.chairman_votes = [] ∨ s.council_votes.treasurer_votes = [] ∨
      s.council_votes.controller_votes = [] then
    (.error "Not all roles have been voted for. Please ensure all roles have votes before finalizing.", s)
  else
    match determine_council_role_winner s.council_votes.chairman_votes with
    | .error e => (.error e, s)
    | .ok chairman_no =>
      match determine_council_role_winner s.council_votes.treasurer_votes with
      | .error e => (.error e, s)
      | .ok treasurer_no =>
        match determine_council_role_winner s.council_votes.controller_votes with
        | .error e => (.error e, s)
        | .ok controller_no =>
          let members0 :=
            btRemove CouncilRole.Controller
              (btRemove CouncilRole.Treasurer
                (btRemove CouncilRole.Chairman s.council_members))
          match btLookup chairman_no s.apartment_storage with
          | none =>
            (.error "Chairman apartment not found.", { s with council_members := members0 })
          | some capt =>
            let members1 := btInsert roleLt CouncilRole.Chairman capt.owner members0
            match btLookup treasurer_no s.apartment_storage with
            | none =>
              (.error "Treasurer apartment not found.", { s with council_members := members1 })
            | some tapt =>
              let members2 := btInsert roleLt CouncilRole.Treasurer tapt.owner members1
              match btLookup controller_no s.apartment_storage with
              | none =>
                (.error "Controller apartment not found.", { s with council_members := members2 })
              | some copt =>
                let members3 := btInsert roleLt CouncilRole.Controller copt.owner members2
                (.ok (), { s with
                  council_members := members3,
                  council_votes := ⟨[], [], []⟩,
                  voted_apartments := [] })

/-- The canister's state-mutating entry points, as transition labels. -/
inductive Op
  | addApartment (caller : Principal) (number : Nat) (name : String) (owner : Principal)
  | applyForCouncil (caller : Principal) (apartment_number : Nat) (role : CouncilRole)
  | makeProposal
  | vote (caller : Principal) (voter target : Nat) (role : CouncilRole)
  | finalize

/-- Execute one entry point. -/
def step (op : Op) (s : State) : Except String Unit × State :=
  match op with
  | .addApartment c n nm o => add_apartment c n nm o s
  | .applyForCouncil c n r => apply_for_council c n r s
  | .makeProposal => make_council_proposal s
  | .vote c v t r => vote_for_council c v t r s
  | .finalize => finalize_council s

/-- Whether one executed entry point was a `finalize` that succeeded. -/
def finalizeOkStep (op : Op) (res : Except String Unit) : Bool :=
  match op with
  | Op.finalize =>
    match res with
    | Except.ok _ => true
    | Except.error _ => false
  | _ => false

/-- Contribution of one executed entry point to the number of successful
votes by apartment `v` for role `r`: 1 when it is a successful `vote` call
for that pair, 0 otherwise. -/
def voteSuccessWeight (v : Nat) (r : CouncilRole) (op : Op)
    (res : Except String Unit) : Nat :=
  match op with
  | Op.vote _ v1 _ r1 =>
    match res with
    | Except.ok _ => if v1 = v ∧ r1 = r then 1 else 0
    | Except.error _ => 0
  | _ => 0

/-- Whether a run of entry points contains a `finalize` call that succeeds. -/
def hasSuccessfulFinalize : List Op → State → Bool
  | [], _ => false
  | op :: ops, s =>
    finalizeOkStep op (step op s).1 || hasSuccessfulFinalize ops (step op s).2

/-- How many `vote` calls for the pair `(v, r)` succeed along a run. -/
def countVoteSuccesses (v : Nat) (r : CouncilRole) : List Op → State → Nat
  | [], _ => 0
  | op :: ops, s =>
    voteSuccessWeight v r op (step op s).1 + countVoteSuccesses v r ops (step op s).2

/-- Run a sequence of `vote_for_council` calls, each described by
(caller, voter apartment, target apartment, role). -/
def runVotes : List (Principal × Nat × Nat × CouncilRole) → State → State
  | [], s => s
  | (c, v, t, r) :: rest, s => runVotes rest (vote_for_council c v t r s).2

/-- Total vote count of a tally list. -/
def sumVotes (l : List CouncilVoteEntry) : Nat := (l.map (fun e => e.votes)).sum

/-- Number of vote-guard entries whose key carries role `r`. -/
def guardCount (r : CouncilRole) (g : List ((Nat × CouncilRole) × Bool)) : Nat :=
  (g.filter (fun kv => decide (kv.1.2 = r))).length

/-- Whether a non-empty tally list has two or more entries sharing the
maximal vote count. -/
def isTied : List CouncilVoteEntry → Bool
  | [] => false
  | v :: rest =>
    decide (1 < ((v :: rest).filter (fun e => decide (e.votes = maxVotes v rest))).length)

/-- The tally list `make_council_proposal` actually builds for role `r`,
stated directly: one zero-vote entry per ledger entry for `r` whose
applicant currently owns some apartment, carrying the number of the
first (lowest-numbered) apartment owned by the applicant; ledger entries
whose applicant owns no apartment are dropped. -/
def snapshotRole (r : CouncilRole) (apps : List (Principal × CouncilApplication))
    (storage : List (Nat × Apartment)) : List CouncilVoteEntry :=
  apps.filterMap (fun p =>
    if p.2.role = r then
      (storage.find? (fun q => decide (q.2.owner = p.1))).map
        (fun q => (⟨q.1, 0⟩ : CouncilVoteEntry))
    else none)

/-- Sample apartment number 1, owned by identity 10. -/
def aptA : Apartment := ⟨"a", 1, 10⟩

/-- Sample apartment number 2, also owned by identity 10. -/
def aptB : Apartment := ⟨"b", 2, 10⟩

/-- Fresh state: capacity 2, builder identity 7, everything empty. -/
def regState : State := ⟨2, 7, [], [], [], ⟨[], [], []⟩, []⟩

/-- One registered apartment (number 1, owner 10), nothing else. -/
def stateOneApt : State := ⟨5, 7, [(1, aptA)], [], [], ⟨[], [], []⟩, []⟩

/-- Two apartments both owned by identity 10; identity 10 has filed a
candidacy for Chairman citing apartment 2. -/
def stateC3 : State :=
  ⟨5, 7, [(1, aptA), (2, aptB)], [(10, ⟨2, CouncilRole.Chairman⟩)], [],
    ⟨[], [], []⟩, []⟩

/-- The state `stateC3` after its council proposal was opened. -/
def stateProp : State := { stateC3 with council_votes := ⟨[⟨1, 0⟩], [], []⟩ }

/-- State whose Treasurer tally references apartment 2 although only
apartment 1 is registered, with full turnout for apartment 1 and a previous
council mapping Chairman to identity 99. -/
def stateBug : State :=
  ⟨5, 7, [(1, aptA)], [], [(CouncilRole.Chairman, 99)],
    ⟨[⟨1, 1⟩], [⟨2, 1⟩], [⟨1, 0⟩]⟩,
    [((1, CouncilRole.Chairman), true), ((1, CouncilRole.Treasurer), true),
      ((1, CouncilRole.Controller), true)]⟩

/-- Full turnout and a single one-vote candidate for every role. -/
def stateOk : State :=
  ⟨5, 7, [(1, aptA)], [(10, ⟨1, CouncilRole.Chairman⟩)], [],
    ⟨[⟨1, 1⟩], [⟨1, 1⟩], [⟨1, 1⟩]⟩,
    [((1, CouncilRole.Chairman), true), ((1, CouncilRole.Treasurer), true),
      ((1, CouncilRole.Controller), true)]⟩

/-- Full turnout, but the Controller tally has two candidates sharing the
maximal vote count. -/
def stateTie : State :=
  ⟨5, 7, [(1, aptA)], [], [],
    ⟨[⟨1, 1⟩], [⟨1, 1⟩], [⟨1, 1⟩, ⟨2, 1⟩]⟩,
    [((1, CouncilRole.Chairman), true), ((1, CouncilRole.Treasurer), true),
      ((1, CouncilRole.Controller), true)]⟩

/-- One registered apartment, a Chairman tally with one zero-vote candidate,
and no ballots cast yet. -/
def stateVote : State := ⟨5, 7, [(1, aptA)], [], [], ⟨[⟨1, 0⟩], [], []⟩, []⟩

/-! ## Helper lemmas about the map model -/

lemma btContains_btInsert_iff {K V : Type} [DecidableEq K] (lt : K → K → Bool)
    (k0 k : K) (v : V) (m : List (K × V)) :
    btContains k0 (btInsert lt k v m) = true ↔ (k0 = k ∨ btContains k0 m = true) := by
  induction m with
  | nil =>
    by_cases hk : k0 = k
    · subst hk; simp [btInsert, btContains]
    · simp [btInsert, btContains, hk, Ne.symm hk]
  | cons hd tl ih =>
    obtain ⟨k1, v1⟩ := hd
    by_cases h : k = k1
    · subst h
      by_cases hk : k0 = k
      · subst hk; simp [btInsert, btContains]
      · simp [btInsert, btContains, hk, Ne.symm hk]
    · by_cases h2 : lt k k1 = true
      · by_cases hk : k0 = k
        · subst hk; simp [btInsert, btContains, h, h2]
        · simp [btInsert, btContains, h, h2, hk, Ne.symm hk]
      · simp only [btInsert, if_neg h, if_neg h2, btContains,
          List.any_cons, Bool.or_eq_true] at *
        simp only [ih]
        tauto

lemma btContains_btInsert_self {K V : Type} [DecidableEq K] (lt : K → K → Bool)
    (k : K) (v : V) (m : List (K × V)) : btContains k (btInsert lt k v m) = true :=
  (btContains_btInsert_iff lt k k v m).mpr (Or.inl rfl)

lemma btContains_btInsert_of {K V : Type} [DecidableEq K] (lt : K → K → Bool)
    (k0 k : K) (v : V) (m : List (K × V)) (h : btContains k0 m = true) :
    btContains k0 (btInsert lt k v m) = true :=
  (btContains_btInsert_iff lt k0 k v m).mpr (Or.inr h)

lemma guardCount_btInsert (k : Nat × CouncilRole) (b : Bool)
    (g : List ((Nat × CouncilRole) × Bool)) (r : CouncilRole)
    (h : btContains k g = false) :
    guardCount r (btInsert guardKeyLt k b g) =
      guardCount r g + (if k.2 = r then 1 else 0) := by
  induction g with
  | nil => by_cases hr : k.2 = r <;> simp [btInsert, guardCount, hr]
  | cons hd tl ih =>
    obtain ⟨k1, v1⟩ := hd
    simp only [btContains, List.any_cons, Bool.or_eq_false_iff,
      decide_eq_false_iff_not] at h
    obtain ⟨hne, htl⟩ := h
    have hk : ¬ k = k1 := fun hh => hne hh.symm
    by_cases h2 : guardKeyLt k k1 = true
    · by_cases hr : k.2 = r <;> by_cases hr1 : k1.2 = r <;>
        simp [btInsert, hk, h2, guardCount, hr, hr1]
    · have ihx := ih (by simpa [btContains] using htl)
      simp only [guardCount] at ihx
      by_cases hr1 : k1.2 = r
      · simp [btInsert, hk, h2, guardCount, hr1, ihx]
        omega
      · simp [btInsert, hk, h2, guardCount, hr1, ihx]

lemma roleVotes_setRoleVotes (q r : CouncilRole) (l : List CouncilVoteEntry)
    (cv : CouncilVotes) :
    roleVotes q (setRoleVotes r l cv) = if q = r then l else roleVotes q cv := by
  cases q <;> cases r <;> simp [roleVotes, setRoleVotes]

lemma sumVotes_vote_incr (t : Nat) (l l1 : List CouncilVoteEntry)
    (h : vote_incr t l = some l1) : sumVotes l1 = sumVotes l + 1 := by
  induction l generalizing l1 with
  | nil => simp [vote_incr] at h
  | cons e rest ih =>
    by_cases he : e.apartment_number = t
    · simp only [vote_incr, if_pos he] at h
      cases h
      simp [sumVotes]
      omega
    · simp only [vote_incr, if_neg he] at h
      cases hm : vote_incr t rest with
      | none => simp [hm] at h
      | some rest1 =>
        simp [hm] at h
        cases h
        have := ih rest1 hm
        simp [sumVotes] at *
        omega

lemma foldl_proposalStep (st : List (Nat × Apartment))
    (apps : List (Principal × CouncilApplication)) (acc : CouncilVotes) :
    apps.foldl (proposalStep st) acc =
      ⟨acc.chairman_votes ++ snapshotRole CouncilRole.Chairman apps st,
       acc.treasurer_votes ++ snapshotRole CouncilRole.Treasurer apps st,
       acc.controller_votes ++ snapshotRole CouncilRole.Controller apps st⟩ := by
  induction apps generalizing acc with
  | nil => simp [snapshotRole]
  | cons p apps ih =>
    simp only [List.foldl_cons, ih]
    cases hf : st.find? (fun q => decide (q.2.owner = p.1)) with
    | none =>
      cases hr : p.2.role <;>
        simp [proposalStep, snapshotRole, hf, hr, List.filterMap_cons]
    | some q =>
      cases hr : p.2.role <;>
        simp [proposalStep, snapshotRole, hf, hr, List.filterMap_cons]

lemma sumVotes_snapshotRole (r : CouncilRole)
    (apps : List (Principal × CouncilApplication)) (st : List (Nat × Apartment)) :
    sumVotes (snapshotRole r apps st) = 0 := by
  induction apps with
  | nil => simp [snapshotRole, sumVotes]
  | cons p apps ih =>
    by_cases hr : p.2.role = r
    · cases hf : st.find? (fun q => decide (q.2.owner = p.1)) <;>
        simp [snapshotRole, List.filterMap_cons, hr, hf, sumVotes] <;>
        simpa [snapshotRole, sumVotes] using ih
    · simp [snapshotRole, List.filterMap_cons, hr]
      simpa [snapshotRole] using ih

lemma foldl_max_attained (rest : List CouncilVoteEntry) (a : Nat) :
    List.foldl (fun m e => max m e.votes) a rest = a ∨
      ∃ e ∈ rest, List.foldl (fun m e => max m e.votes) a rest = e.votes := by
  induction rest generalizing a with
  | nil => left; rfl
  | cons e rest ih =>
    rcases ih (max a e.votes) with h | ⟨e1, he1, h⟩
    · rcases max_choice a e.votes with hm | hm
      · left; simpa [hm] using h
      · right; exact ⟨e, List.mem_cons_self e rest, by simpa [hm] using h⟩
    · right; exact ⟨e1, List.mem_cons_of_mem e he1, h⟩

lemma maxVotes_attained (v : CouncilVoteEntry) (rest : List CouncilVoteEntry) :
    ∃ e ∈ v :: rest, e.votes = maxVotes v rest := by
  rcases foldl_max_attained rest v.votes with h | ⟨e, he, h⟩
  · exact ⟨v, List.mem_cons_self v rest, h.symm⟩
  · exact ⟨e, List.mem_cons_of_mem v he, h.symm⟩

lemma determine_error_of_isTied (l : List CouncilVoteEntry) (h : isTied l = true) :
    determine_council_role_winner l =
      .error "There is a tie between candidates. Please resolve manually." := by
  cases l with
  | nil => simp [isTied] at h
  | cons v rest =>
    simp only [isTied, decide_eq_true_eq] at h
    simp [determine_council_role_winner, h]

lemma determine_ok_of_not_isTied (v : CouncilVoteEntry) (rest : List CouncilVoteEntry)
    (h : isTied (v :: rest) = false) :
    ∃ n, determine_council_role_winner (v :: rest) = .ok n := by
  simp only [isTied, decide_eq_false_iff_not] at h
  obtain ⟨e, he, hv⟩ := maxVotes_attained v rest
  have hmem : e ∈ (v :: rest).filter (fun x => decide (x.votes = maxVotes v rest)) := by
    simp [List.mem_filter, he, hv]
  cases hc : (v :: rest).filter (fun x => decide (x.votes = maxVotes v rest)) with
  | nil => rw [hc] at hmem; simp at hmem
  | cons c cs =>
    refine ⟨c.apartment_number, ?_⟩
    simp only [determine_council_role_winner, hc]
    rw [if_neg (by rw [← hc]; simpa using h)]

lemma determine_ok_of_unique (v : CouncilVoteEntry) (rest : List CouncilVoteEntry)
    (e : CouncilVoteEntry)
    (h : (v :: rest).filter (fun x => decide (x.votes = maxVotes v rest)) = [e]) :
    determine_council_role_winner (v :: rest) = .ok e.apartment_number := by
  simp [determine_council_role_winner, h]

/-! ## Frame lemmas for the entry points -/

lemma add_apartment_voted (c : Principal) (n : Nat) (nm : String) (o : Principal)
    (s : State) : (add_apartment c n nm o s).2.voted_apartments = s.voted_apartments := by
  unfold add_apartment
  repeat' split
  all_goals rfl

lemma apply_for_council_voted (c : Principal) (n : Nat) (r : CouncilRole) (s : State) :
    (apply_for_council c n r s).2.voted_apartments = s.voted_apartments := by
  unfold apply_for_council
  repeat' (first | split | dsimp only)

lemma make_council_proposal_voted (s : State) :
    (make_council_proposal s).2.voted_apartments = s.voted_apartments := by
  unfold make_council_proposal
  split
  all_goals rfl

lemma vote_result (c : Principal) (v t : Nat) (r : CouncilRole) (s : State) :
    (∃ e, vote_for_council c v t r s = (.error e, s)) ∨
    (btContains (v, r) s.voted_apartments = false ∧
      ∃ l1, vote_incr t (roleVotes r s.council_votes) = some l1 ∧
        vote_for_council c v t r s = (.ok (), { s with
          council_votes := setRoleVotes r l1 s.council_votes,
          voted_apartments := btInsert guardKeyLt (v, r) true s.voted_apartments })) := by
  unfold vote_for_council
  split_ifs with h1 h2
  · exact Or.inl ⟨_, rfl⟩
  · cases hm : vote_incr t (roleVotes r s.council_votes) with
    | none => exact Or.inl ⟨_, rfl⟩
    | some l1 => exact Or.inr ⟨by simpa using h2, l1, rfl, rfl⟩
  · exact Or.inl ⟨_, rfl⟩

lemma vote_of_contains (c : Principal) (v t : Nat) (r : CouncilRole) (s : State)
    (h : btContains (v, r) s.voted_apartments = true) :
    (vote_for_council c v t r s).2 = s ∧
      ∀ u, (vote_for_council c v t r s).1 ≠ Except.ok u := by
  unfold vote_for_council
  split_ifs with h1
  · exact ⟨rfl, by simp⟩
  · exact ⟨rfl, by simp⟩

lemma finalize_cases (s : State) :
    ((finalize_council s).1 = .ok () ∧
      (finalize_council s).2.council_votes = ⟨[], [], []⟩ ∧
      (finalize_council s).2.voted_apartments = [] ∧
      (finalize_council s).2.council_applications = s.council_applications ∧
      (finalize_council s).2.apartment_storage = s.apartment_storage) ∨
    ((∃ e, (finalize_council s).1 = .error e) ∧
      (finalize_council s).2.voted_apartments = s.voted_apartments ∧
      (finalize_council s).2.council_votes = s.council_votes ∧
      (finalize_council s).2.council_applications = s.council_applications ∧
      (finalize_council s).2.apartment_storage = s.apartment_storage) := by
  unfold finalize_council
  repeat' split
  all_goals first
    | exact Or.inl ⟨rfl, rfl, rfl, rfl, rfl⟩
    | exact Or.inr ⟨⟨_, rfl⟩, rfl, rfl, rfl, rfl⟩

lemma vote_incr_eq_none (t : Nat) (l : List CouncilVoteEntry)
    (h : ∀ e ∈ l, ¬ e.apartment_number = t) : vote_incr t l = none := by
  induction l with
  | nil => rfl
  | cons e rest ih =>
    rw [vote_incr, if_neg (h e (List.mem_cons_self e rest)),
      ih (fun x hx => h x (List.mem_cons_of_mem e hx))]

lemma vote_incr_split (t : Nat) (pre post : List CouncilVoteEntry)
    (e : CouncilVoteEntry) (hpre : ∀ x ∈ pre, ¬ x.apartment_number = t)
    (he : e.apartment_number = t) :
    vote_incr t (pre ++ e :: post) =
      some (pre ++ { e with votes := e.votes + 1 } :: post) := by
  induction pre with
  | nil => simp [vote_incr, he]
  | cons x xs ih =>
    rw [List.cons_append, vote_incr, if_neg (hpre x (List.mem_cons_self x xs)),
      ih (fun y hy => hpre y (List.mem_cons_of_mem x hy))]
    rfl

lemma apply_ok (c : Principal) (n : Nat) (r : CouncilRole) (s : State)
    (h : (apply_for_council c n r s).1 = .ok ()) :
    (apply_for_council c n r s).2 = { s with
      council_applications := btInsert principalLt c ⟨n, r⟩ s.council_applications } := by
  unfold apply_for_council at *
  cases hl : btLookup n s.apartment_storage with
  | none => rw [hl] at h; simp at h
  | some apt =>
    rw [hl] at h
    dsimp only at h ⊢
    split_ifs at h ⊢ with h1 h2
    rw [h1]

lemma mem_btInsert {K V : Type} [DecidableEq K] (lt : K → K → Bool) (k : K) (v : V)
    (m : List (K × V)) (p : K × V) (hp : p ∈ btInsert lt k v m) :
    p = (k, v) ∨ p ∈ m := by
  induction m with
  | nil => simpa [btInsert] using hp
  | cons hd tl ih =>
    obtain ⟨k1, v1⟩ := hd
    by_cases h : k = k1
    · rw [btInsert, if_pos h] at hp
      rcases List.mem_cons.mp hp with h2 | h2
      · exact Or.inl h2
      · exact Or.inr (List.mem_cons_of_mem _ h2)
    · by_cases hl : lt k k1 = true
      · rw [btInsert, if_neg h, if_pos hl] at hp
        rcases List.mem_cons.mp hp with h2 | h2
        · exact Or.inl h2
        · exact Or.inr h2
      · rw [btInsert, if_neg h, if_neg hl] at hp
        rcases List.mem_cons.mp hp with h2 | h2
        · exact Or.inr (by simp [h2])
        · rcases ih h2 with h3 | h3
          · exact Or.inl h3
          · exact Or.inr (List.mem_cons_of_mem _ h3)

lemma pairwise_btInsert {V : Type} (k : Principal) (v : V)
    (m : List (Principal × V)) (hs : m.Pairwise (fun a b => a.1 < b.1)) :
    (btInsert principalLt k v m).Pairwise (fun a b => a.1 < b.1) := by
  induction m with
  | nil => simp [btInsert]
  | cons hd tl ih =>
    obtain ⟨k1, v1⟩ := hd
    rw [List.pairwise_cons] at hs
    obtain ⟨hhd, htl⟩ := hs
    by_cases h : k = k1
    · rw [btInsert, if_pos h]
      exact List.pairwise_cons.mpr ⟨by simpa [h] using hhd, htl⟩
    · by_cases hl : principalLt k k1 = true
      · have hkk1 : k < k1 := by simpa [principalLt] using hl
        rw [btInsert, if_neg h, if_pos hl]
        refine List.pairwise_cons.mpr ⟨?_, List.pairwise_cons.mpr ⟨hhd, htl⟩⟩
        intro b hb
        rcases List.mem_cons.mp hb with h2 | h2
        · simpa [h2] using hkk1
        · exact lt_trans hkk1 (hhd b h2)
      · have hk1k : k1 < k := by
          rcases Nat.lt_trichotomy k k1 with h3 | h3 | h3
          · exact absurd (by simpa [principalLt] using h3) hl
          · exact absurd h3 h
          · exact h3
        rw [btInsert, if_neg h, if_neg hl]
        refine List.pairwise_cons.mpr ⟨?_, ih htl⟩
        intro b hb
        rcases mem_btInsert principalLt k v tl b hb with h2 | h2
        · simpa [h2] using hk1k
        · exact hhd b h2

lemma filter_key_eq_nil {V : Type} (k : Principal) (m : List (Principal × V))
    (h : ∀ b ∈ m, ¬ b.1 = k) :
    m.filter (fun p => decide (p.1 = k)) = [] := by
  induction m with
  | nil => rfl
  | cons hd tl ih =>
    rw [List.filter_cons, if_neg (by simpa using h hd (List.mem_cons_self hd tl))]
    exact ih (fun b hb => h b (List.mem_cons_of_mem hd hb))

lemma filter_key_btInsert {V : Type} (k : Principal) (v : V)
    (m : List (Principal × V)) (hs : m.Pairwise (fun a b => a.1 < b.1)) :
    (btInsert principalLt k v m).filter (fun p => decide (p.1 = k)) = [(k, v)] := by
  induction m with
  | nil => simp [btInsert]
  | cons hd tl ih =>
    obtain ⟨k1, v1⟩ := hd
    rw [List.pairwise_cons] at hs
    obtain ⟨hhd, htl⟩ := hs
    by_cases h : k = k1
    · rw [btInsert, if_pos h, List.filter_cons, if_pos (by simp)]
      rw [filter_key_eq_nil k tl (fun b hb hbk => by
        have hb2 : k1 < b.1 := hhd b hb
        rw [hbk, h] at hb2
        exact lt_irrefl k1 hb2)]
    · by_cases hl : principalLt k k1 = true
      · have hkk1 : k < k1 := by simpa [principalLt] using hl
        rw [btInsert, if_neg h, if_pos hl, List.filter_cons, if_pos (by simp),
          List.filter_cons, if_neg (by simpa using fun hh => h hh.symm)]
        rw [filter_key_eq_nil k tl (fun b hb hbk => by
          have hb2 : k1 < b.1 := hhd b hb
          rw [hbk] at hb2
          exact lt_irrefl k (lt_trans hkk1 hb2))]
      · rw [btInsert, if_neg h, if_neg hl, List.filter_cons,
          if_neg (by simpa using fun hh => h hh.symm)]
        exact ih htl

lemma guard_preserved (op : Op) (s : State) (k : Nat × CouncilRole)
    (hk : btContains k s.voted_apartments = true)
    (hnf : finalizeOkStep op (step op s).1 = false) :
    btContains k (step op s).2.voted_apartments = true := by
  cases op with
  | addApartment c n nm o =>
    show btContains k (add_apartment c n nm o s).2.voted_apartments = true
    rw [add_apartment_voted]
    exact hk
  | applyForCouncil c n r =>
    show btContains k (apply_for_council c n r s).2.voted_apartments = true
    rw [apply_for_council_voted]
    exact hk
  | makeProposal =>
    show btContains k (make_council_proposal s).2.voted_apartments = true
    rw [make_council_proposal_voted]
    exact hk
  | vote c v1 t r1 =>
    show btContains k (vote_for_council c v1 t r1 s).2.voted_apartments = true
    rcases vote_result c v1 t r1 s with ⟨e, he⟩ | ⟨hc, l1, hl, he⟩
    · rw [he]
      exact hk
    · rw [he]
      exact btContains_btInsert_of guardKeyLt k (v1, r1) true s.voted_apartments hk
  | finalize =>
    show btContains k (finalize_council s).2.voted_apartments = true
    rcases finalize_cases s with ⟨hok, _⟩ | ⟨_, hv, _⟩
    · exfalso
      have hstep : (step Op.finalize s).1 = Except.ok () := hok
      rw [hstep] at hnf
      simp [finalizeOkStep] at hnf
    · rw [hv]
      exact hk

lemma count_le_one_aux (v : Nat) (r : CouncilRole) (ops : List Op) :
    ∀ s : State, hasSuccessfulFinalize ops s = false →
      (btContains (v, r) s.voted_apartments = true →
        countVoteSuccesses v r ops s = 0) ∧
      countVoteSuccesses v r ops s ≤ 1 := by
  induction ops with
  | nil =>
    intro s _
    refine ⟨fun _ => rfl, ?_⟩
    rw [countVoteSuccesses]
    omega
  | cons op ops ih =>
    intro s h
    rw [hasSuccessfulFinalize, Bool.or_eq_false_iff] at h
    obtain ⟨h1, h2⟩ := h
    have IH := ih (step op s).2 h2
    by_cases hk : btContains (v, r) s.voted_apartments = true
    · have hk2 := guard_preserved op s (v, r) hk h1
      have hrest := IH.1 hk2
      have hhead : voteSuccessWeight v r op (step op s).1 = 0 := by
        cases op with
        | vote c v1 t r1 =>
          cases hres : (step (Op.vote c v1 t r1) s).1 with
          | error e => rfl
          | ok u =>
            by_cases hvr : v1 = v ∧ r1 = r
            · exfalso
              obtain ⟨hv1, hrr⟩ := hvr
              subst hv1
              subst hrr
              exact (vote_of_contains c v1 t r1 s hk).2 u hres
            · simp [voteSuccessWeight, hvr]
        | addApartment c n nm o => rfl
        | applyForCouncil c n r1 => rfl
        | makeProposal => rfl
        | finalize => rfl
      have hcount : countVoteSuccesses v r (op :: ops) s = 0 := by
        rw [countVoteSuccesses, hhead, hrest]
      refine ⟨fun _ => hcount, ?_⟩
      rw [hcount]
      omega
    · refine ⟨fun hkk => absurd hkk hk, ?_⟩
      rw [countVoteSuccesses]
      cases op with
      | vote c v1 t r1 =>
        cases hres : (step (Op.vote c v1 t r1) s).1 with
        | error e =>
          simp only [voteSuccessWeight]
          have := IH.2
          omega
        | ok u =>
          by_cases hvr : v1 = v ∧ r1 = r
          · obtain ⟨hv1, hrr⟩ := hvr
            subst hv1
            subst hrr
            have hk2 : btContains (v1, r1)
                (step (Op.vote c v1 t r1) s).2.voted_apartments = true := by
              rcases vote_result c v1 t r1 s with ⟨e, he⟩ | ⟨hc, l1, hl, he⟩
              · exfalso
                have hres2 : (step (Op.vote c v1 t r1) s).1 = Except.error e := by
                  show (vote_for_council c v1 t r1 s).1 = Except.error e
                  rw [he]
                rw [hres2] at hres
                cases hres
              · show btContains (v1, r1)
                  (vote_for_council c v1 t r1 s).2.voted_apartments = true
                rw [he]
                exact btContains_btInsert_self guardKeyLt (v1, r1) true s.voted_apartments
            have hrest := IH.1 hk2
            rw [hrest]
            simp [voteSuccessWeight]
          · simp only [voteSuccessWeight, if_neg hvr]
            have := IH.2
            omega
      | addApartment c n nm o =>
        have := IH.2
        have hw : voteSuccessWeight v r (Op.addApartment c n nm o)
            (step (Op.addApartment c n nm o) s).1 = 0 := rfl
        omega
      | applyForCouncil c n r1 =>
        have := IH.2
        have hw : voteSuccessWeight v r (Op.applyForCouncil c n r1)
            (step (Op.applyForCouncil c n r1) s).1 = 0 := rfl
        omega
      | makeProposal =>
        have := IH.2
        have hw : voteSuccessWeight v r Op.makeProposal
            (step Op.makeProposal s).1 = 0 := rfl
        omega
      | finalize =>
        have := IH.2
        have hw : voteSuccessWeight v r Op.finalize (step Op.finalize s).1 = 0 := rfl
        omega

lemma vote_preserves_invariant (c : Principal) (v t : Nat) (r : CouncilRole)
    (s : State)
    (hinv : ∀ q : CouncilRole,
      sumVotes (roleVotes q s.council_votes) = guardCount q s.voted_apartments) :
    ∀ q : CouncilRole,
      sumVotes (roleVotes q (vote_for_council c v t r s).2.council_votes) =
        guardCount q (vote_for_council c v t r s).2.voted_apartments := by
  intro q
  rcases vote_result c v t r s with ⟨e, he⟩ | ⟨hc, l1, hl, he⟩
  · rw [he]
    exact hinv q
  · rw [he]
    show sumVotes (roleVotes q (setRoleVotes r l1 s.council_votes)) =
      guardCount q (btInsert guardKeyLt (v, r) true s.voted_apartments)
    rw [roleVotes_setRoleVotes, guardCount_btInsert (v, r) true s.voted_apartments q hc]
    by_cases hq : q = r
    · subst hq
      rw [if_pos rfl, if_pos rfl, sumVotes_vote_incr t _ l1 hl, hinv q]
    · rw [if_neg hq, if_neg (fun hh => hq hh.symm), hinv q]
      omega

lemma runVotes_preserves (vs : List (Principal × Nat × Nat × CouncilRole)) :
    ∀ s : State,
      (∀ q : CouncilRole,
        sumVotes (roleVotes q s.council_votes) = guardCount q s.voted_apartments) →
      ∀ q : CouncilRole,
        sumVotes (roleVotes q (runVotes vs s).council_votes) =
          guardCount q (runVotes vs s).voted_apartments := by
  induction vs with
  | nil => exact fun s hinv => hinv
  | cons hd rest ih =>
    intro s hinv
    obtain ⟨c, v, t, r⟩ := hd
    exact ih (vote_for_council c v t r s).2 (vote_preserves_invariant c v t r s hinv)

/-! ## The claims -/

/-- Claim C9: `register_apartment` (`add_apartment`) succeeds if and only if
the caller is the configured builder identity, the apartment number is
non-zero and not already registered, the name is non-empty, and the current
number of registered apartments is strictly below the configured capacity;
on success exactly the new record is inserted under its number, and on
failure the registry (indeed the whole state) is unchanged. -/
theorem claim_C9_register_apartment (caller : Principal) (apartment_number : Nat)
    (apartment_name : String) (owner : Principal) (s : State) :
    (((add_apartment caller apartment_number apartment_name owner s).1 = .ok ()) ↔
      (caller = s.builder_id ∧ ¬ apartment_number = 0 ∧ ¬ apartment_name = "" ∧
        s.apartment_storage.length < s.apartments_count ∧
        btContains apartment_number s.apartment_storage = false)) ∧
    ((add_apartment caller apartment_number apartment_name owner s).1 = .ok () →
      (add_apartment caller apartment_number apartment_name owner s).2 =
        { s with
          apartment_storage := btInsert natLt apartment_number
            ⟨apartment_name, apartment_number, owner⟩ s.apartment_storage }) ∧
    (¬ (add_apartment caller apartment_number apartment_name owner s).1 = .ok () →
      (add_apartment caller apartment_number apartment_name owner s).2 = s) := by
  unfold add_apartment
  split_ifs with h1 h2 h3 h4 h5 <;>
    refine ⟨?_, ?_, ?_⟩ <;>
      simp_all [Nat.not_le, Bool.not_eq_true]

/-- Witness for C9: in the fresh state the builder registers apartment 1
successfully and the registry receives exactly that record. -/
theorem claim_C9_register_apartment_witness :
    (add_apartment 7 1 "a" 10 regState).1 = .ok () ∧
    (add_apartment 7 1 "a" 10 regState).2 =
      { regState with
        apartment_storage := btInsert natLt 1 ⟨"a", 1, 10⟩ regState.apartment_storage } :=
  ⟨(claim_C9_register_apartment 7 1 "a" 10 regState).1.mpr (by decide),
   (claim_C9_register_apartment 7 1 "a" 10 regState).2.1
     ((claim_C9_register_apartment 7 1 "a" 10 regState).1.mpr (by decide))⟩

/-- Claim C1 (refuted — code bug): `finalize_council` is not all-or-nothing
on Council Membership. At `stateBug`, whose Treasurer tally names the
unregistered apartment 2, finalize fails with "Treasurer apartment not
found." yet leaves Council Membership half-updated: the pre-call entry
(Chairman ↦ 99) has been removed and the new Chairman (owner 10 of
apartment 1) has already been inserted, contradicting the claim that after
any failed finalize Council Membership is identical to its pre-call
value. -/
theorem claim_C1_finalize_half_update :
    stateBug.council_members = [(CouncilRole.Chairman, 99)] ∧
    finalize_council stateBug =
      (.error "Treasurer apartment not found.",
        { stateBug with council_members := [(CouncilRole.Chairman, 10)] }) := by
  exact ⟨rfl, rfl⟩

/-- Claim C2 (counterexample): after the owner of apartment 1 successfully
submits a Chairman candidacy and then successfully submits a Treasurer
candidacy, the Candidacy Ledger holds only the Treasurer entry — the
earlier Chairman candidacy has been overwritten, so the two candidacies are
not both present. -/
theorem claim_C2_counterexample :
    (apply_for_council 10 1 CouncilRole.Chairman stateOneApt).1 = .ok () ∧
    (apply_for_council 10 1 CouncilRole.Treasurer
      (apply_for_council 10 1 CouncilRole.Chairman stateOneApt).2).1 = .ok () ∧
    (apply_for_council 10 1 CouncilRole.Treasurer
      (apply_for_council 10 1 CouncilRole.Chairman stateOneApt).2).2.council_applications =
      [(10, ⟨1, CouncilRole.Treasurer⟩)] ∧
    ¬ ((10, (⟨1, CouncilRole.Chairman⟩ : CouncilApplication)) ∈
      (apply_for_council 10 1 CouncilRole.Treasurer
        (apply_for_council 10 1 CouncilRole.Chairman stateOneApt).2).2.council_applications) := by
  refine ⟨rfl, rfl, rfl, ?_⟩
  decide

/-- Claim C2 (amended): an owner may successfully submit candidacies for two
roles in sequence — the second submission is not rejected — but because the
Candidacy Ledger is keyed by identity the second submission overwrites the
first: afterwards the ledger holds exactly one entry for that identity,
recording the second candidacy. (Stated for any state whose ledger is
sorted by key, which every reachable ledger is.) -/
theorem claim_C2_amended (caller : Principal) (apt1 apt2 : Nat)
    (r1 r2 : CouncilRole) (s : State)
    (hs : s.council_applications.Pairwise (fun a b => a.1 < b.1))
    (h1 : (apply_for_council caller apt1 r1 s).1 = .ok ())
    (h2 : (apply_for_council caller apt2 r2
      (apply_for_council caller apt1 r1 s).2).1 = .ok ()) :
    ((apply_for_council caller apt2 r2
      (apply_for_council caller apt1 r1 s).2).2.council_applications.filter
        (fun p => decide (p.1 = caller))) = [(caller, ⟨apt2, r2⟩)] := by
  rw [apply_ok caller apt2 r2 _ h2, apply_ok caller apt1 r1 s h1]
  exact filter_key_btInsert caller ⟨apt2, r2⟩ _
    (pairwise_btInsert caller ⟨apt1, r1⟩ s.council_applications hs)

/-- Witness for the amended C2 at the concrete one-apartment state. -/
theorem claim_C2_amended_witness :
    (apply_for_council 10 1 CouncilRole.Chairman stateOneApt).1 = .ok () ∧
    (apply_for_council 10 1 CouncilRole.Treasurer
      (apply_for_council 10 1 CouncilRole.Chairman stateOneApt).2).1 = .ok () ∧
    ((apply_for_council 10 1 CouncilRole.Treasurer
      (apply_for_council 10 1 CouncilRole.Chairman stateOneApt).2).2.council_applications.filter
        (fun p => decide (p.1 = 10))) = [(10, ⟨1, CouncilRole.Treasurer⟩)] :=
  ⟨rfl, rfl,
   claim_C2_amended 10 1 1 CouncilRole.Chairman CouncilRole.Treasurer stateOneApt
     (by simp [stateOneApt]) rfl rfl⟩

/-- Claim C3 (counterexample): at `stateC3` the only candidacy (filed by
identity 10) records apartment 2, yet a successful `make_council_proposal`
appends the Chairman tally entry for apartment 1 — the first apartment
owned by identity 10 — so the entry's apartment number differs from the one
recorded in the candidacy. -/
theorem claim_C3_counterexample :
    stateC3.council_applications = [(10, ⟨2, CouncilRole.Chairman⟩)] ∧
    make_council_proposal stateC3 =
      (.ok (), { stateC3 with council_votes := ⟨[⟨1, 0⟩], [], []⟩ }) ∧
    ¬ (1 = 2) := by
  refine ⟨rfl, rfl, ?_⟩
  decide

/-- Claim C3 (amended): when the Vote Guard is empty, `make_council_proposal`
succeeds, clears the three per-role lists and rebuilds each role's list with
one `{apartment_number, vote_count := 0}` entry per ledger entry for that
role whose applicant currently owns at least one apartment, in ledger
iteration order; the apartment number used is that of the first
(lowest-numbered) apartment currently owned by the applicant — not the one
recorded in the candidacy — and ledger entries whose applicant owns no
apartment are skipped. -/
theorem claim_C3_amended (s : State) (h : s.voted_apartments = []) :
    make_council_proposal s = (.ok (), { s with
      council_votes :=
        ⟨snapshotRole CouncilRole.Chairman s.council_applications s.apartment_storage,
         snapshotRole CouncilRole.Treasurer s.council_applications s.apartment_storage,
         snapshotRole CouncilRole.Controller s.council_applications s.apartment_storage⟩ }) := by
  unfold make_council_proposal
  rw [if_neg (by simp [h]), foldl_proposalStep]
  rfl

/-- Witness for the amended C3 at the concrete two-apartment state. -/
theorem claim_C3_amended_witness :
    make_council_proposal stateC3 = (.ok (), { stateC3 with
      council_votes :=
        ⟨snapshotRole CouncilRole.Chairman stateC3.council_applications stateC3.apartment_storage,
         snapshotRole CouncilRole.Treasurer stateC3.council_applications stateC3.apartment_storage,
         snapshotRole CouncilRole.Controller stateC3.council_applications stateC3.apartment_storage⟩ }) :=
  claim_C3_amended stateC3 rfl

/-- Claim C4: `finalize_council` fails with no state change whenever (a)
some apartment currently in the registry lacks a Vote Guard entry for one
of the three roles, or (b) one of the three tally lists is empty; in both
cases the returned state — tally, guard and Council Membership included —
equals the pre-call state. -/
theorem claim_C4_finalize_preconditions (s : State)
    (h : (∃ kv ∈ s.apartment_storage, ∃ r : CouncilRole,
            btContains (kv.1, r) s.voted_apartments = false) ∨
          s.council_votes.chairman_votes = [] ∨
          s.council_votes.treasurer_votes = [] ∨
          s.council_votes.controller_votes = []) :
    (∃ e, (finalize_council s).1 = Except.error e) ∧ (finalize_council s).2 = s := by
  by_cases hav : allApartmentsVoted s = true
  · have hb : s.council_votes.chairman_votes = [] ∨
        s.council_votes.treasurer_votes = [] ∨
        s.council_votes.controller_votes = [] := by
      rcases h with ⟨kv, hkv, r, hr⟩ | hb
      · exfalso
        have h3 := List.all_eq_true.mp hav kv hkv
        simp only [Bool.and_eq_true] at h3
        cases r with
        | Chairman => rw [h3.1.1] at hr; cases hr
        | Treasurer => rw [h3.1.2] at hr; cases hr
        | Controller => rw [h3.2] at hr; cases hr
      · exact hb
    unfold finalize_council
    rw [if_neg (by simp [hav]), if_pos hb]
    exact ⟨⟨_, rfl⟩, rfl⟩
  · unfold finalize_council
    rw [if_pos hav]
    exact ⟨⟨_, rfl⟩, rfl⟩

/-- Witness for C4: at `stateVote` apartment 1 is registered but has no
guard entry for Chairman, so finalize fails and the state is unchanged. -/
theorem claim_C4_finalize_preconditions_witness :
    (∃ e, (finalize_council stateVote).1 = Except.error e) ∧
      (finalize_council stateVote).2 = stateVote :=
  claim_C4_finalize_preconditions stateVote
    (Or.inl ⟨(1, aptA), by decide, CouncilRole.Chairman, by decide⟩)

/-- Claim C5: if turnout passes and all three tally lists are non-empty but
some role has two or more entries sharing the maximal vote count, finalize
fails with the tie error and the state — Council Membership, tally and
guard — is unchanged; and when exactly one entry holds the maximal vote
count, `determine_council_role_winner` returns exactly that entry's
apartment number. -/
theorem claim_C5_tie_safety :
    (∀ s : State, allApartmentsVoted s = true →
      ¬ s.council_votes.chairman_votes = [] →
      ¬ s.council_votes.treasurer_votes = [] →
      ¬ s.council_votes.controller_votes = [] →
      (isTied s.council_votes.chairman_votes = true ∨
        isTied s.council_votes.treasurer_votes = true ∨
        isTied s.council_votes.controller_votes = true) →
      finalize_council s =
        (.error "There is a tie between candidates. Please resolve manually.", s)) ∧
    (∀ (v : CouncilVoteEntry) (rest : List CouncilVoteEntry) (e : CouncilVoteEntry),
      (v :: rest).filter (fun x => decide (x.votes = maxVotes v rest)) = [e] →
      determine_council_role_winner (v :: rest) = .ok e.apartment_number) := by
  constructor
  · intro s hav hch htr hco htied
    unfold finalize_council
    rw [if_neg (by simp [hav]), if_neg (by simp [hch, htr, hco])]
    rcases hcl : s.council_votes.chairman_votes with _ | ⟨v1, rest1⟩
    · exact absurd hcl hch
    · by_cases ht1 : isTied (v1 :: rest1) = true
      · rw [determine_error_of_isTied _ ht1]
      · have hnt1 : isTied (v1 :: rest1) = false := by
          revert ht1
          cases isTied (v1 :: rest1) <;> simp
        obtain ⟨n1, hn1⟩ := determine_ok_of_not_isTied v1 rest1 hnt1
        rw [hn1]
        rcases htl : s.council_votes.treasurer_votes with _ | ⟨v2, rest2⟩
        · exact absurd htl htr
        · by_cases ht2 : isTied (v2 :: rest2) = true
          · rw [determine_error_of_isTied _ ht2]
          · have hnt2 : isTied (v2 :: rest2) = false := by
              revert ht2
              cases isTied (v2 :: rest2) <;> simp
            obtain ⟨n2, hn2⟩ := determine_ok_of_not_isTied v2 rest2 hnt2
            rw [hn2]
            rcases hcol : s.council_votes.controller_votes with _ | ⟨v3, rest3⟩
            · exact absurd hcol hco
            · have ht3 : isTied (v3 :: rest3) = true := by
                rcases htied with ht | ht | ht
                · rw [hcl] at ht
                  exact absurd ht (by rw [hnt1]; simp)
                · rw [htl] at ht
                  exact absurd ht (by rw [hnt2]; simp)
                · rw [hcol] at ht
                  exact ht
              rw [determine_error_of_isTied _ ht3]
  · intro v rest e h
    exact determine_ok_of_unique v rest e h

/-- Witness for C5: at `stateTie` the Controller tally is tied, finalize
fails with the tie error leaving the state unchanged; and on the singleton
Chairman list the unique maximal entry is the winner. -/
theorem claim_C5_tie_safety_witness :
    finalize_council stateTie =
      (.error "There is a tie between candidates. Please resolve manually.", stateTie) ∧
    determine_council_role_winner [⟨1, 1⟩] = .ok 1 :=
  ⟨claim_C5_tie_safety.1 stateTie rfl (by decide) (by decide) (by decide)
     (Or.inr (Or.inr rfl)),
   claim_C5_tie_safety.2 ⟨1, 1⟩ [] ⟨1, 1⟩ (by decide)⟩

/-- Claim C8: after a successful finalize all three per-role vote lists are
empty, the Vote Guard holds no entries, and the Candidacy Ledger is exactly
what it was before the call. -/
theorem claim_C8_cycle_reset (s : State)
    (h : (finalize_council s).1 = .ok ()) :
    (finalize_council s).2.council_votes = ⟨[], [], []⟩ ∧
    (finalize_council s).2.voted_apartments = [] ∧
    (finalize_council s).2.council_applications = s.council_applications := by
  rcases finalize_cases s with ⟨_, hv, hva, happ, _⟩ | ⟨⟨e, he⟩, _⟩
  · exact ⟨hv, hva, happ⟩
  · rw [he] at h
    cases h

/-- Witness for C8: the single-apartment election at `stateOk` finalizes
successfully and resets the cycle. -/
theorem claim_C8_cycle_reset_witness :
    (finalize_council stateOk).1 = .ok () ∧
    ((finalize_council stateOk).2.council_votes = ⟨[], [], []⟩ ∧
      (finalize_council stateOk).2.voted_apartments = [] ∧
      (finalize_council stateOk).2.council_applications = stateOk.council_applications) :=
  ⟨rfl, claim_C8_cycle_reset stateOk rfl⟩

/-- Claim C7: when the caller owns the voting apartment and no guard entry
for (voter, role) exists, `vote_for_council` behaves as an atomic pair: if
no tally entry of the role carries the target apartment number it fails and
changes nothing; if such an entry exists, the first matching entry's vote
count is incremented by exactly 1, the guard key (voter, role) is inserted,
and nothing else in the state changes. -/
theorem claim_C7_vote_atomic_pair (caller : Principal) (v t : Nat)
    (r : CouncilRole) (s : State)
    (hown : isOwner caller v s = true)
    (hguard : btContains (v, r) s.voted_apartments = false) :
    ((∀ e ∈ roleVotes r s.council_votes, ¬ e.apartment_number = t) →
      vote_for_council caller v t r s =
        (.error "No such apartment in the council applications.", s)) ∧
    (∀ (pre post : List CouncilVoteEntry) (e : CouncilVoteEntry),
      roleVotes r s.council_votes = pre ++ e :: post →
      (∀ x ∈ pre, ¬ x.apartment_number = t) →
      e.apartment_number = t →
      vote_for_council caller v t r s = (.ok (), { s with
        council_votes :=
          setRoleVotes r (pre ++ { e with votes := e.votes + 1 } :: post) s.council_votes,
        voted_apartments :=
          btInsert guardKeyLt (v, r) true s.voted_apartments })) := by
  constructor
  · intro hnone
    unfold vote_for_council
    rw [if_neg (by simp [hown]), if_neg (by simp [hguard]),
      vote_incr_eq_none t _ hnone]
  · intro pre post e hsplit hpre he
    unfold vote_for_council
    rw [if_neg (by simp [hown]), if_neg (by simp [hguard]), hsplit,
      vote_incr_split t pre post e hpre he]

/-- Witness for C7: at `stateVote` the owner of apartment 1 votes for
candidate 1 as Chairman; the single tally entry goes from 0 to 1 votes and
the guard key (1, Chairman) is inserted; a vote for the absent candidate 9
would instead fail without changing the state. -/
theorem claim_C7_vote_atomic_pair_witness :
    vote_for_council 10 1 1 CouncilRole.Chairman stateVote = (.ok (), { stateVote with
      council_votes :=
        setRoleVotes CouncilRole.Chairman [⟨1, 1⟩] stateVote.council_votes,
      voted_apartments :=
        btInsert guardKeyLt (1, CouncilRole.Chairman) true stateVote.voted_apartments }) ∧
    vote_for_council 10 1 9 CouncilRole.Chairman stateVote =
      (.error "No such apartment in the council applications.", stateVote) :=
  ⟨(claim_C7_vote_atomic_pair 10 1 1 CouncilRole.Chairman stateVote rfl rfl).2
      [] [] ⟨1, 0⟩ rfl (by simp) rfl,
   (claim_C7_vote_atomic_pair 10 1 9 CouncilRole.Chairman stateVote rfl rfl).1
      (by decide)⟩

/-- Claim C6: for every (voter apartment, role) pair, `cast_vote` succeeds
at most once along any run of entry points that contains no successful
finalize: once a guard entry exists every further vote for the pair fails,
and only a successful finalize removes guard entries. -/
theorem claim_C6_no_double_voting (v : Nat) (r : CouncilRole) (ops : List Op)
    (s : State) (h : hasSuccessfulFinalize ops s = false) :
    countVoteSuccesses v r ops s ≤ 1 :=
  (count_le_one_aux v r ops s h).2

/-- Witness for C6: two identical vote calls at `stateVote` with no
finalize in between; the bound of at most one success holds. -/
theorem claim_C6_no_double_voting_witness :
    hasSuccessfulFinalize
      [Op.vote 10 1 1 CouncilRole.Chairman, Op.vote 10 1 1 CouncilRole.Chairman]
      stateVote = false ∧
    countVoteSuccesses 1 CouncilRole.Chairman
      [Op.vote 10 1 1 CouncilRole.Chairman, Op.vote 10 1 1 CouncilRole.Chairman]
      stateVote ≤ 1 :=
  ⟨rfl,
   claim_C6_no_double_voting 1 CouncilRole.Chairman
     [Op.vote 10 1 1 CouncilRole.Chairman, Op.vote 10 1 1 CouncilRole.Chairman]
     stateVote rfl⟩

/-- Claim C10: in every state reached from a successful `open_proposal`
(`make_council_proposal`) by any sequence of `cast_vote` calls, for each
role the sum of vote counts over that role's tally list equals the number
of Vote Guard entries whose key carries that role. -/
theorem claim_C10_tally_guard_invariant (s s0 : State)
    (vs : List (Principal × Nat × Nat × CouncilRole))
    (h : make_council_proposal s = (.ok (), s0)) (r : CouncilRole) :
    sumVotes (roleVotes r (runVotes vs s0).council_votes) =
      guardCount r (runVotes vs s0).voted_apartments := by
  have hbase : ∀ q : CouncilRole,
      sumVotes (roleVotes q s0.council_votes) = guardCount q s0.voted_apartments := by
    unfold make_council_proposal at h
    split_ifs at h with hv
    · have hs0 : s0 = { s with
          council_votes :=
            s.council_applications.foldl (proposalStep s.apartment_storage) ⟨[], [], []⟩ } := by
        have hsnd := congrArg Prod.snd h
        simpa using hsnd.symm
      intro q
      rw [hs0]
      show sumVotes (roleVotes q
        (s.council_applications.foldl (proposalStep s.apartment_storage) ⟨[], [], []⟩)) =
        guardCount q s.voted_apartments
      rw [foldl_proposalStep, hv]
      cases q <;>
        simp [roleVotes, sumVotes_snapshotRole, guardCount]
    · exact absurd (congrArg Prod.fst h) (by simp)
  exact runVotes_preserves vs s0 hbase r

/-- Witness for C10: open a proposal at `stateC3` and cast one Chairman
vote; the Chairman tally sum equals the number of Chairman guard keys. -/
theorem claim_C10_tally_guard_invariant_witness :
    make_council_proposal stateC3 = (.ok (), stateProp) ∧
    sumVotes (roleVotes CouncilRole.Chairman
      (runVotes [(10, 1, 1, CouncilRole.Chairman)] stateProp).council_votes) =
      guardCount CouncilRole.Chairman
        (runVotes [(10, 1, 1, CouncilRole.Chairman)] stateProp).voted_apartments :=
  ⟨rfl,
   claim_C10_tally_guard_invariant stateC3 stateProp
     [(10, 1, 1, CouncilRole.Chairman)] rfl CouncilRole.Chairman⟩
